import Mathlib

/-!
Shallow embedding of the edit-session engine of the pixshop image editor
(App.tsx and CropPanel.tsx): the undo/redo history stack, the transient
state (hotspot, crop region, text layers), the crop rasterization
geometry, and the layer flattening used by merge-to-history and
download/export.  Rasters are modelled as an inductive datatype that
records how each raster was produced; coordinates and scale factors are
exact rationals.  Each React handler becomes a pure function on an
explicit session state; the asynchronous external collaborator call is
modelled by passing its outcome (a new raster or an error message) as an
argument.
-/

/-- A single draw call issued when painting one text layer onto a canvas:
`globalAlpha = opacity`, `font = size px font`, `fillStyle = color`,
`textBaseline = top`, `fillText(content, x, y)`. -/
structure TextOp where
  alpha : ℚ
  font : String
  fillStyle : String
  baseline : String
  content : String
  x : ℚ
  y : ℚ
deriving DecidableEq, Repr

/-- Rasters: an opaque uploaded/generated/collaborator-produced image, a
crop output (recording the canvas dimensions and the source rectangle of
the `drawImage` call), or a flatten output (base image plus the list of
text draw calls painted over it, in paint order). -/
inductive Raster where
  | img (id : Nat)
  | cropped (canvasW canvasH srcX srcY srcW srcH : ℚ)
  | merged (base : Raster) (ops : List TextOp)
deriving DecidableEq, Repr

/-- The `TextLayer` interface of App.tsx. -/
structure TextLayer where
  id : String
  type : String
  content : String
  font : String
  size : ℚ
  color : String
  position : ℚ × ℚ
  opacity : ℚ
  visible : Bool
deriving DecidableEq, Repr

/-- A rectangle of react-image-crop (`Crop` / `PixelCrop`): x, y, width,
height in display pixel space. -/
structure CropRect where
  x : ℚ
  y : ℚ
  width : ℚ
  height : ℚ
deriving DecidableEq, Repr

/-- The session state of the App component: the fields of App.tsx that the
edit-session engine reads and writes (history stack, busy flag, error
message, hotspot, crop selection, text layers and selection, active tab). -/
structure AppState where
  history : List Raster
  historyIndex : Int
  prompt : String
  isLoading : Bool
  error : Option String
  editHotspot : Option (ℚ × ℚ)
  displayHotspot : Option (ℚ × ℚ)
  crop : Option CropRect
  completedCrop : Option CropRect
  layers : List TextLayer
  selectedLayerId : Option String
  activeTab : String
deriving DecidableEq, Repr

/-- `const canUndo = historyIndex > 0` (App.tsx line 109). -/
def canUndo (s : AppState) : Bool := decide (0 < s.historyIndex)

/-- `const canRedo = historyIndex < history.length - 1` (App.tsx line 110). -/
def canRedo (s : AppState) : Bool :=
  decide (s.historyIndex < (s.history.length : Int) - 1)

/-- `const currentImage = history[historyIndex] ?? null` (App.tsx line 76):
out-of-range or negative indices yield none. -/
def currentImage (s : AppState) : Option Raster :=
  if 0 ≤ s.historyIndex then s.history[s.historyIndex.toNat]? else none

/-- `addImageToHistory` (App.tsx lines 112-122): slice the history to
`[0, historyIndex]`, push the new raster, move the cursor to the new last
index, and reset the transient crop and layer state. -/
def addImageToHistory (s : AppState) (newImageFile : Raster) : AppState :=
  let newHistory := s.history.take (s.historyIndex + 1).toNat ++ [newImageFile]
  { s with
    history := newHistory
    historyIndex := (newHistory.length : Int) - 1
    crop := none
    completedCrop := none
    layers := []
    selectedLayerId := none }

/-- `handleUndo` (App.tsx lines 338-346): guarded by `canUndo`; decrements
the cursor and clears hotspot, layers and layer selection. -/
def handleUndo (s : AppState) : AppState :=
  if canUndo s then
    { s with
      historyIndex := s.historyIndex - 1
      editHotspot := none
      displayHotspot := none
      layers := []
      selectedLayerId := none }
  else s

/-- `handleRedo` (App.tsx lines 348-356): guarded by `canRedo`; increments
the cursor and clears hotspot, layers and layer selection. -/
def handleRedo (s : AppState) : AppState :=
  if canRedo s then
    { s with
      historyIndex := s.historyIndex + 1
      editHotspot := none
      displayHotspot := none
      layers := []
      selectedLayerId := none }
  else s

/-- `handleResetCrop` (App.tsx lines 333-336). -/
def handleResetCrop (s : AppState) : AppState :=
  { s with crop := none, completedCrop := none }

/-- The guard `!prompt.trim()` of App.tsx line 173: the prompt is empty or
consists entirely of whitespace (trimming leading and trailing whitespace
leaves the empty string exactly when every character is whitespace). -/
def promptIsBlank (p : String) : Bool := p.data.all Char.isWhitespace

/-- `handleGenerate` (App.tsx lines 167-199), the localized retouch path.
The awaited collaborator call is abstracted by its outcome `result`; the
prompt text passed to the collaborator is irrelevant to the state
transition.  On success the result is committed and the hotspot cleared;
on failure the error message is set; the busy flag is cleared on both. -/
def handleGenerate (s : AppState) (result : Except String Raster) : AppState :=
  if (currentImage s).isNone then
    { s with error := some "No image loaded to edit." }
  else if promptIsBlank s.prompt then
    { s with error := some "Please enter a description for your edit." }
  else if s.editHotspot.isNone then
    { s with error := some "Please click on the image to select an area to edit." }
  else
    match result with
    | Except.ok r =>
      let s1 := addImageToHistory { s with isLoading := true, error := none } r
      { s1 with editHotspot := none, displayHotspot := none, isLoading := false }
    | Except.error msg =>
      { s with isLoading := false,
               error := some ("Failed to generate the image. " ++ msg) }

/-- `handleApplyFilter` (App.tsx lines 201-221). -/
def handleApplyFilter (s : AppState) (result : Except String Raster) : AppState :=
  if (currentImage s).isNone then
    { s with error := some "No image loaded to apply a filter to." }
  else
    match result with
    | Except.ok r =>
      let s1 := addImageToHistory { s with isLoading := true, error := none } r
      { s1 with isLoading := false }
    | Except.error msg =>
      { s with isLoading := false,
               error := some ("Failed to apply the filter. " ++ msg) }

/-- `handleApplyAdjustment` (App.tsx lines 223-243). -/
def handleApplyAdjustment (s : AppState) (result : Except String Raster) : AppState :=
  if (currentImage s).isNone then
    { s with error := some "No image loaded to apply an adjustment to." }
  else
    match result with
    | Except.ok r =>
      let s1 := addImageToHistory { s with isLoading := true, error := none } r
      { s1 with isLoading := false }
    | Except.error msg =>
      { s with isLoading := false,
               error := some ("Failed to apply the adjustment. " ++ msg) }

/-- `handleAutoEnhance` (App.tsx lines 245-265). -/
def handleAutoEnhance (s : AppState) (result : Except String Raster) : AppState :=
  if (currentImage s).isNone then
    { s with error := some "No image loaded to auto-enhance." }
  else
    match result with
    | Except.ok r =>
      let s1 := addImageToHistory { s with isLoading := true, error := none } r
      { s1 with isLoading := false }
    | Except.error msg =>
      { s with isLoading := false,
               error := some ("Failed to auto-enhance the image. " ++ msg) }

/-- `handleUpscale` (App.tsx lines 267-287). -/
def handleUpscale (s : AppState) (result : Except String Raster) : AppState :=
  if (currentImage s).isNone then
    { s with error := some "No image loaded to upscale." }
  else
    match result with
    | Except.ok r =>
      let s1 := addImageToHistory { s with isLoading := true, error := none } r
      { s1 with isLoading := false }
    | Except.error msg =>
      { s with isLoading := false,
               error := some ("Failed to upscale the image. " ++ msg) }

/-- `handleApplyCrop` (App.tsx lines 289-331).  `imgAvailable` models
`imgRef.current`, `ctxAvailable` models `canvas.getContext` succeeding,
`naturalW/naturalH` and `dispW/dispH` are the image element's natural and
displayed dimensions, `pixelRatio` models `window.devicePixelRatio || 1`.
The final canvas dimensions are `completedCrop.width * pixelRatio` by
`completedCrop.height * pixelRatio` (modelled as exact rationals, eliding
the IDL integer truncation of non-integral products), and the `drawImage`
source rectangle scales each axis by naturalWidth/width and
naturalHeight/height independently (the source's scaleX/scaleY).  When
either canvas dimension is zero, `canvas.toDataURL` returns the string
`data:,`, whose comma split has no parsable MIME type, so `dataURLtoFile`
throws uncaught (part_000 line 26) before `addImageToHistory` runs: the
`Except.error` result carries that exception message and means the
handler aborted with the session state unchanged — nothing committed and
no error message set.  `Except.ok` is a normal return with the new
state. -/
def handleApplyCrop (s : AppState) (imgAvailable : Bool)
    (naturalW naturalH dispW dispH : ℚ) (ctxAvailable : Bool)
    (pixelRatio : ℚ) : Except String AppState :=
  match s.completedCrop with
  | none => Except.ok { s with error := some "Please select an area to crop." }
  | some c =>
    if imgAvailable = false then
      Except.ok { s with error := some "Please select an area to crop." }
    else if ctxAvailable = false then
      Except.ok { s with error := some "Could not process the crop." }
    else if c.width * pixelRatio = 0 ∨ c.height * pixelRatio = 0 then
      Except.error "Could not parse MIME type from data URL"
    else
      Except.ok (addImageToHistory s
        (Raster.cropped (c.width * pixelRatio) (c.height * pixelRatio)
          (c.x * (naturalW / dispW)) (c.y * (naturalH / dispH))
          (c.width * (naturalW / dispW)) (c.height * (naturalH / dispH))))

/-- The CropPanel prop `isApplyCropEnabled: !!completedCrop?.width &&
completedCrop.width > 0` (App.tsx line 775): enabled iff a completed crop
exists with nonzero, positive width.  The height is not inspected. -/
def isApplyCropEnabled (s : AppState) : Bool :=
  match s.completedCrop with
  | none => false
  | some c => decide (¬ c.width = 0) && decide (0 < c.width)

/-- The draw call the layer-painting loop issues for one layer. -/
def textOpOf (l : TextLayer) : TextOp :=
  ⟨l.opacity, toString l.size ++ "px " ++ l.font, l.color, "top",
    l.content, l.position.1, l.position.2⟩

/-- One iteration of the layer-painting loop shared by `handleMergeLayers`
and `handleDownload`: paint the layer (appending its draw call) only if it
is visible and of type text. -/
def drawStep (ops : List TextOp) (l : TextLayer) : List TextOp :=
  if l.visible && (l.type == "text") then ops ++ [textOpOf l] else ops

/-- The layer draw calls of `handleMergeLayers` (App.tsx lines 551-559):
`[...layers].reverse().forEach(...)` paints the reversed sequence. -/
def mergeDrawOps (layers : List TextLayer) : List TextOp :=
  layers.reverse.foldl drawStep []

/-- The layer draw calls of `handleDownload` (App.tsx lines 391-399): the
same reversed-sequence loop, duplicated at the download call site. -/
def downloadDrawOps (layers : List TextLayer) : List TextOp :=
  layers.reverse.foldl drawStep []

/-- `handleMergeLayers` (App.tsx lines 534-571): flattens the current
image plus the visible layers into a new raster and commits it.
`imgLoadOk` models the image element load succeeding, `ctxOk` the canvas
context being available. -/
def handleMergeLayers (s : AppState) (imgLoadOk ctxOk : Bool) : AppState :=
  match currentImage s with
  | none => s
  | some base =>
    if imgLoadOk = false then
      { s with isLoading := false, error := some "Failed to load image for merging." }
    else if ctxOk = false then
      { s with isLoading := false,
               error := some "Failed to create canvas context for merging." }
    else
      let s1 := addImageToHistory { s with isLoading := true }
        (Raster.merged base (mergeDrawOps s.layers))
      { s1 with isLoading := false }

/-- The canvas content produced by `handleDownload` (App.tsx lines
379-410): the current image painted at natural resolution, then the
visible layers in reversed sequence order. -/
def downloadOutput (base : Raster) (layers : List TextLayer) : Raster :=
  Raster.merged base (downloadDrawOps layers)

/-- The layer constructed by `handleAddTextLayer` (App.tsx lines 497-508). -/
def newTextLayer (newId : String) : TextLayer :=
  { id := newId
    type := "text"
    content := "Your Text Here"
    font := "Arial"
    size := 50
    color := "#FFFFFF"
    position := (50, 50)
    opacity := 1
    visible := true }

/-- `handleAddTextLayer` (App.tsx lines 496-512): appends the new layer at
the end of the sequence, selects it, and switches to the text tab. -/
def handleAddTextLayer (s : AppState) (newId : String) : AppState :=
  { s with
    layers := s.layers ++ [newTextLayer newId]
    selectedLayerId := some newId
    activeTab := "text" }

/-- `handleRemoveLayer` (App.tsx lines 518-523): filters the layer out;
if it was selected, the selection becomes none. -/
def handleRemoveLayer (s : AppState) (id : String) : AppState :=
  { s with
    layers := s.layers.filter (fun l => ¬ l.id = id)
    selectedLayerId :=
      if s.selectedLayerId = some id then none else s.selectedLayerId }

/-- N successive commits of rasters `R 1 .. R N` through
`addImageToHistory`. -/
def commitSeq (R : Nat → Raster) (s : AppState) : Nat → AppState
  | 0 => s
  | n + 1 => addImageToHistory (commitSeq R s n) (R (n + 1))

/-- K successive `handleUndo` operations. -/
def undoTimes (s : AppState) : Nat → AppState
  | 0 => s
  | k + 1 => handleUndo (undoTimes s k)

/-- Modelled from the spec: the spec's description of the crop output
buffer width, "the crop's natural-space width multiplied by the device
pixel ratio", i.e. display width times the display-to-natural X scale
times the device pixel ratio.  Used only to compare the spec's claim
against the source's `handleApplyCrop`. -/
def cropOutputWidthSpec (displayWidth scaleX pixelRatio : ℚ) : ℚ :=
  displayWidth * scaleX * pixelRatio

/-- A minimal session state: one uploaded image, cursor 0, everything
transient empty. -/
def baseState : AppState :=
  { history := [Raster.img 0]
    historyIndex := 0
    prompt := ""
    isLoading := false
    error := none
    editHotspot := none
    displayHotspot := none
    crop := none
    completedCrop := none
    layers := []
    selectedLayerId := none
    activeTab := "retouch" }

/-- A state with a hotspot selected (both representations). -/
def stateWithHotspot : AppState :=
  { baseState with editHotspot := some (3, 4), displayHotspot := some (1, 2) }

/-- A state with one prior edit (undo available) and an active crop
selection. -/
def stateUndoableWithCrop : AppState :=
  { baseState with
    history := [Raster.img 0, Raster.img 1]
    historyIndex := 1
    crop := some ⟨1, 2, 3, 4⟩
    completedCrop := some ⟨1, 2, 3, 4⟩ }

/-- A state with the spec's example crop selection: display-space region
(x=100, y=50, w=100, h=50). -/
def stateCrop100 : AppState :=
  { baseState with completedCrop := some ⟨100, 50, 100, 50⟩ }

/-- A state with a degenerate completed crop: width 5 (positive), height 0. -/
def stateDegenerateCrop : AppState :=
  { baseState with completedCrop := some ⟨0, 0, 5, 0⟩ }

/-- A visible example text layer. -/
def layerA : TextLayer :=
  ⟨"a1", "text", "Alpha", "Arial", 40, "#FF0000", (10, 10), 1, true⟩

/-- An invisible example text layer. -/
def layerHidden : TextLayer :=
  ⟨"h1", "text", "Hidden", "Arial", 40, "#00FF00", (20, 20), 1, false⟩

/-- A state holding one visible text layer. -/
def stateOneLayer : AppState := { baseState with layers := [layerA] }

/-- A state with a zero-width completed crop. -/
def stateZeroWidthCrop : AppState :=
  { baseState with completedCrop := some ⟨0, 0, 0, 5⟩ }

/-- Claim C1: commit truncates the history to `[0, cursor]`, appends the
new raster, and moves the cursor to the new last index; in particular,
from `[R0,R1,R2]` at cursor 2, one undo (cursor 1) followed by committing
`Rp` yields `[R0,R1,Rp]` at cursor 2 with redo unavailable.  The general
part also shows the committed raster becomes current. -/
theorem commit_truncates_and_appends (R0 R1 R2 Rp f : Raster) (s t : AppState)
    (h1 : s.history = [R0, R1, R2]) (h2 : s.historyIndex = 2)
    (h3 : 0 ≤ t.historyIndex) (h4 : t.historyIndex < (t.history.length : Int)) :
    ((handleUndo s).historyIndex = 1 ∧
     (addImageToHistory (handleUndo s) Rp).history = [R0, R1, Rp] ∧
     (addImageToHistory (handleUndo s) Rp).historyIndex = 2 ∧
     canRedo (addImageToHistory (handleUndo s) Rp) = false) ∧
    ((addImageToHistory t f).history =
        t.history.take (t.historyIndex + 1).toNat ++ [f] ∧
     (addImageToHistory t f).historyIndex = t.historyIndex + 1 ∧
     currentImage (addImageToHistory t f) = some f ∧
     canRedo (addImageToHistory t f) = false) := by
  have htake : (t.historyIndex + 1).toNat ≤ t.history.length := by omega
  have hlen :
      (t.history.take (t.historyIndex + 1).toNat ++ [f]).length =
        (t.historyIndex + 1).toNat + 1 := by
    simp [List.length_take]
    omega
  refine ⟨⟨?_, ?_, ?_, ?_⟩, ?_, ?_, ?_, ?_⟩
  · simp [handleUndo, canUndo, h2]
  · simp [handleUndo, canUndo, addImageToHistory, h1, h2]
  · simp [handleUndo, canUndo, addImageToHistory, h1, h2]
  · simp [handleUndo, canUndo, addImageToHistory, canRedo, h1, h2]
  · rfl
  · simp [addImageToHistory, hlen]
    omega
  · have htk : (t.history.take (t.historyIndex + 1).toNat).length =
        (t.historyIndex + 1).toNat := by
      simp [List.length_take]
      omega
    have hget : (t.history.take (t.historyIndex + 1).toNat ++ [f])[(t.historyIndex + 1).toNat]? =
        some f := by
      have h := List.getElem?_concat_length (t.history.take (t.historyIndex + 1).toNat) f
      rwa [htk] at h
    have hist2 : (addImageToHistory t f).history =
        t.history.take (t.historyIndex + 1).toNat ++ [f] := rfl
    have idx2 : (addImageToHistory t f).historyIndex = t.historyIndex + 1 := by
      simp [addImageToHistory, hlen]
      omega
    unfold currentImage
    rw [idx2, hist2, if_pos (by omega : (0 : Int) ≤ t.historyIndex + 1)]
    exact hget
  · simp [addImageToHistory, canRedo]

/-- Claim C1 witness: the theorem applied at a concrete three-entry
history. -/
theorem commit_truncates_and_appends_witness :
    ({ baseState with
        history := [Raster.img 0, Raster.img 1, Raster.img 2],
        historyIndex := 2 } : AppState).history =
      [Raster.img 0, Raster.img 1, Raster.img 2] ∧
    (addImageToHistory
      (handleUndo { baseState with
        history := [Raster.img 0, Raster.img 1, Raster.img 2],
        historyIndex := 2 }) (Raster.img 9)).history =
      [Raster.img 0, Raster.img 1, Raster.img 9] := by
  refine ⟨rfl, ?_⟩
  exact (commit_truncates_and_appends (Raster.img 0) (Raster.img 1)
    (Raster.img 2) (Raster.img 9) (Raster.img 7)
    { baseState with
        history := [Raster.img 0, Raster.img 1, Raster.img 2],
        historyIndex := 2 }
    baseState rfl rfl (by decide) (by decide)).1.2.1

/-- Claim C10: undo and redo never modify the history sequence; when the
guard is false the whole state is unchanged; when the guard holds only
the cursor moves (by one) among the history fields. -/
theorem undo_redo_frame (s : AppState) :
    (handleUndo s).history = s.history ∧
    (handleRedo s).history = s.history ∧
    (canUndo s = false → handleUndo s = s) ∧
    (canRedo s = false → handleRedo s = s) ∧
    (canUndo s = true → (handleUndo s).historyIndex = s.historyIndex - 1) ∧
    (canRedo s = true → (handleRedo s).historyIndex = s.historyIndex + 1) := by
  refine ⟨?_, ?_, ?_, ?_, ?_, ?_⟩
  · unfold handleUndo; split <;> rfl
  · unfold handleRedo; split <;> rfl
  · intro h; unfold handleUndo; simp [h]
  · intro h; unfold handleRedo; simp [h]
  · intro h; unfold handleUndo; simp [h]
  · intro h; unfold handleRedo; simp [h]

/-- Claim C10 witness: at a one-entry history neither guard holds and both
operations are the identity. -/
theorem undo_redo_frame_witness :
    canUndo baseState = false ∧ handleUndo baseState = baseState ∧
    canRedo baseState = false ∧ handleRedo baseState = baseState := by
  refine ⟨rfl, ?_, rfl, ?_⟩
  · exact (undo_redo_frame baseState).2.2.1 rfl
  · exact (undo_redo_frame baseState).2.2.2.1 rfl

/-- Claim C4 counterexample: in a state where undo is permitted and a crop
region is selected, `handleUndo` leaves both the in-progress and the
completed crop selection in place — it does not clear the crop region as
the claim states. -/
theorem undo_keeps_crop_counterexample :
    canUndo stateUndoableWithCrop = true ∧
    (handleUndo stateUndoableWithCrop).crop = some ⟨1, 2, 3, 4⟩ ∧
    (handleUndo stateUndoableWithCrop).completedCrop = some ⟨1, 2, 3, 4⟩ ∧
    (some (⟨1, 2, 3, 4⟩ : CropRect) ≠ (none : Option CropRect)) := by
  refine ⟨rfl, rfl, rfl, by decide⟩

/-- Claim C4 amended: undo and redo clear the hotspot, the layers and the
layer selection but leave the crop region (both `crop` and
`completedCrop`) unchanged; the crop region is cleared by `commit`
(`addImageToHistory`) and by `handleResetCrop`, not by undo/redo. -/
theorem undo_redo_crop_behavior (s : AppState) (f : Raster) :
    (handleUndo s).crop = s.crop ∧
    (handleUndo s).completedCrop = s.completedCrop ∧
    (handleRedo s).crop = s.crop ∧
    (handleRedo s).completedCrop = s.completedCrop ∧
    (canUndo s = true →
      (handleUndo s).editHotspot = none ∧
      (handleUndo s).displayHotspot = none ∧
      (handleUndo s).layers = [] ∧
      (handleUndo s).selectedLayerId = none) ∧
    (canRedo s = true →
      (handleRedo s).editHotspot = none ∧
      (handleRedo s).displayHotspot = none ∧
      (handleRedo s).layers = [] ∧
      (handleRedo s).selectedLayerId = none) ∧
    (handleResetCrop s).crop = none ∧
    (handleResetCrop s).completedCrop = none ∧
    (addImageToHistory s f).crop = none ∧
    (addImageToHistory s f).completedCrop = none := by
  refine ⟨?_, ?_, ?_, ?_, ?_, ?_, rfl, rfl, rfl, rfl⟩
  · unfold handleUndo; split <;> rfl
  · unfold handleUndo; split <;> rfl
  · unfold handleRedo; split <;> rfl
  · unfold handleRedo; split <;> rfl
  · intro h; unfold handleUndo; simp [h]
  · intro h; unfold handleRedo; simp [h]

/-- Claim C4 amended witness: the amended behavior at a concrete state
where undo is permitted. -/
theorem undo_redo_crop_behavior_witness :
    canUndo stateUndoableWithCrop = true ∧
    ((handleUndo stateUndoableWithCrop).crop = stateUndoableWithCrop.crop ∧
     (handleUndo stateUndoableWithCrop).editHotspot = none ∧
     (addImageToHistory stateUndoableWithCrop (Raster.img 5)).completedCrop = none) := by
  have h := undo_redo_crop_behavior stateUndoableWithCrop (Raster.img 5)
  exact ⟨rfl, h.1, (h.2.2.2.2.1 rfl).1, h.2.2.2.2.2.2.2.2.2⟩

/-- Claim C3 counterexample: a successful filter commit (the collaborator
returned a raster and it was pushed onto the history) leaves the hotspot
set in both representations — committed edits other than the localized
retouch do not clear the hotspot. -/
theorem filter_commit_keeps_hotspot_counterexample :
    currentImage (handleApplyFilter stateWithHotspot (Except.ok (Raster.img 1))) =
      some (Raster.img 1) ∧
    (handleApplyFilter stateWithHotspot (Except.ok (Raster.img 1))).editHotspot =
      some (3, 4) ∧
    (handleApplyFilter stateWithHotspot (Except.ok (Raster.img 1))).displayHotspot =
      some (1, 2) ∧
    (some ((3 : ℚ), (4 : ℚ)) ≠ (none : Option (ℚ × ℚ))) := by
  refine ⟨by decide, by decide, by decide, by decide⟩

/-- Claim C3 amended: only the localized-retouch commit path
(`handleGenerate`) clears the hotspot, and undo/redo clear it; the filter,
adjustment, auto-enhance, upscale, crop-apply and merge-layers commit
paths all leave both hotspot representations unchanged. -/
theorem commit_hotspot_behavior (s : AppState) (r : Raster)
    (imgOk : Bool) (nw nh dw dh pr : ℚ) (ctxOk : Bool) (mImg mCtx : Bool) :
    ((handleApplyFilter s (Except.ok r)).editHotspot = s.editHotspot ∧
     (handleApplyFilter s (Except.ok r)).displayHotspot = s.displayHotspot) ∧
    ((handleApplyAdjustment s (Except.ok r)).editHotspot = s.editHotspot ∧
     (handleApplyAdjustment s (Except.ok r)).displayHotspot = s.displayHotspot) ∧
    ((handleAutoEnhance s (Except.ok r)).editHotspot = s.editHotspot ∧
     (handleAutoEnhance s (Except.ok r)).displayHotspot = s.displayHotspot) ∧
    ((handleUpscale s (Except.ok r)).editHotspot = s.editHotspot ∧
     (handleUpscale s (Except.ok r)).displayHotspot = s.displayHotspot) ∧
    (∀ t : AppState, handleApplyCrop s imgOk nw nh dw dh ctxOk pr = Except.ok t →
      t.editHotspot = s.editHotspot ∧ t.displayHotspot = s.displayHotspot) ∧
    ((handleMergeLayers s mImg mCtx).editHotspot = s.editHotspot ∧
     (handleMergeLayers s mImg mCtx).displayHotspot = s.displayHotspot) ∧
    ((currentImage s).isSome = true → promptIsBlank s.prompt = false →
      s.editHotspot.isSome = true →
      (handleGenerate s (Except.ok r)).editHotspot = none ∧
      (handleGenerate s (Except.ok r)).displayHotspot = none) ∧
    (canUndo s = true →
      (handleUndo s).editHotspot = none ∧ (handleUndo s).displayHotspot = none) ∧
    (canRedo s = true →
      (handleRedo s).editHotspot = none ∧ (handleRedo s).displayHotspot = none) := by
  refine ⟨?_, ?_, ?_, ?_, ?_, ?_, ?_, ?_, ?_⟩
  · unfold handleApplyFilter; split <;> simp [addImageToHistory]
  · unfold handleApplyAdjustment; split <;> simp [addImageToHistory]
  · unfold handleAutoEnhance; split <;> simp [addImageToHistory]
  · unfold handleUpscale; split <;> simp [addImageToHistory]
  · intro t ht
    unfold handleApplyCrop at ht
    split at ht
    · simp only [Except.ok.injEq] at ht
      subst ht
      exact ⟨rfl, rfl⟩
    · split at ht
      · simp only [Except.ok.injEq] at ht
        subst ht
        exact ⟨rfl, rfl⟩
      · split at ht
        · simp only [Except.ok.injEq] at ht
          subst ht
          exact ⟨rfl, rfl⟩
        · split at ht
          · simp at ht
          · simp only [Except.ok.injEq] at ht
            subst ht
            exact ⟨rfl, rfl⟩
  · unfold handleMergeLayers; split
    · simp
    · split
      · simp
      · split <;> simp [addImageToHistory]
  · intro h1 h2 h3
    unfold handleGenerate
    rw [Bool.eq_false_iff] at h2
    simp [Option.isNone_iff_eq_none, Option.isSome_iff_ne_none] at h1 h3
    simp [h1, h2, h3, addImageToHistory]
  · intro h; unfold handleUndo; simp [h]
  · intro h; unfold handleRedo; simp [h]

/-- Claim C3 amended witness: at a concrete state with a hotspot and an
image, the retouch commit clears the hotspot while a filter commit keeps
it. -/
theorem commit_hotspot_behavior_witness :
    ((currentImage { stateWithHotspot with prompt := "blue" }).isSome = true ∧
      promptIsBlank ({ stateWithHotspot with prompt := "blue" } : AppState).prompt = false ∧
      ({ stateWithHotspot with prompt := "blue" } : AppState).editHotspot.isSome = true) ∧
    (handleGenerate { stateWithHotspot with prompt := "blue" }
        (Except.ok (Raster.img 1))).editHotspot = none ∧
    (handleApplyFilter { stateWithHotspot with prompt := "blue" }
        (Except.ok (Raster.img 1))).editHotspot =
      ({ stateWithHotspot with prompt := "blue" } : AppState).editHotspot := by
  have h := commit_hotspot_behavior { stateWithHotspot with prompt := "blue" }
    (Raster.img 1) true 1 1 1 1 1 true true true
  exact ⟨⟨by decide, by decide, by decide⟩,
    (h.2.2.2.2.2.2.1 (by decide) (by decide) (by decide)).1, h.1.1⟩

/-- After N commits from a one-entry history `[R 0]` at cursor 0, the
history is `[R 0, R 1, .., R N]` and the cursor is N. -/
theorem commitSeq_spec (R : Nat → Raster) (s : AppState)
    (h1 : s.history = [R 0]) (h2 : s.historyIndex = 0) (N : Nat) :
    (commitSeq R s N).history = (List.range (N + 1)).map R ∧
    (commitSeq R s N).historyIndex = (N : Int) := by
  induction N with
  | zero =>
    refine ⟨?_, by simpa [commitSeq] using h2⟩
    rw [show commitSeq R s 0 = s from rfl, h1]
    rfl
  | succ n ih =>
    obtain ⟨ihh, ihi⟩ := ih
    have hstep : commitSeq R s (n + 1) =
        addImageToHistory (commitSeq R s n) (R (n + 1)) := rfl
    have htake : (commitSeq R s n).history.take
        ((commitSeq R s n).historyIndex + 1).toNat = (commitSeq R s n).history := by
      apply List.take_of_length_le
      rw [ihh, ihi]
      simp
    have hrange : List.range (n + 1 + 1) = List.range (n + 1) ++ [n + 1] := by
      simp [List.range_succ]
    constructor
    · rw [hstep]
      show (commitSeq R s n).history.take
          ((commitSeq R s n).historyIndex + 1).toNat ++ [R (n + 1)] = _
      rw [htake, ihh, hrange]
      simp
    · rw [hstep]
      show (((commitSeq R s n).history.take
          ((commitSeq R s n).historyIndex + 1).toNat ++ [R (n + 1)]).length : Int) - 1 = _
      rw [htake, ihh]
      simp

/-- After K undos with K at most the cursor, the history is unchanged and
the cursor has moved down by K. -/
theorem undoTimes_spec (s : AppState) : ∀ (K : Nat), (K : Int) ≤ s.historyIndex →
    (undoTimes s K).history = s.history ∧
    (undoTimes s K).historyIndex = s.historyIndex - K := by
  intro K
  induction K with
  | zero => intro _; exact ⟨rfl, by simp [undoTimes]⟩
  | succ k ih =>
    intro h
    have hk : (k : Int) ≤ s.historyIndex := by push_cast at h ⊢; omega
    obtain ⟨ihh, ihi⟩ := ih hk
    have hcan : canUndo (undoTimes s k) = true := by
      unfold canUndo
      rw [ihi]
      simp only [decide_eq_true_eq]
      push_cast at h ⊢
      omega
    have hstep : undoTimes s (k + 1) = handleUndo (undoTimes s k) := rfl
    rw [hstep]
    unfold handleUndo
    rw [hcan]
    refine ⟨by simp [ihh], ?_⟩
    simp only [if_true]
    show (undoTimes s k).historyIndex - 1 = _
    rw [ihi]
    push_cast
    ring

/-- Claim C2: from history `[R 0]` at cursor 0, after N commits of
`R 1 .. R N` and K ≤ N undos, the current raster is `R (N-K)` and redo is
available exactly when K > 0; moreover `canUndo`/`canRedo` hold exactly
when the cursor is positive / below the last index. -/
theorem commit_undo_trajectory (R : Nat → Raster) (s : AppState) (N K : Nat)
    (h1 : s.history = [R 0]) (h2 : s.historyIndex = 0) (hK : K ≤ N) :
    currentImage (undoTimes (commitSeq R s N) K) = some (R (N - K)) ∧
    canRedo (undoTimes (commitSeq R s N) K) = decide (0 < K) ∧
    (canUndo (undoTimes (commitSeq R s N) K) = true ↔
      0 < (undoTimes (commitSeq R s N) K).historyIndex) ∧
    (canRedo (undoTimes (commitSeq R s N) K) = true ↔
      (undoTimes (commitSeq R s N) K).historyIndex <
        ((undoTimes (commitSeq R s N) K).history.length : Int) - 1) := by
  obtain ⟨ch, ci⟩ := commitSeq_spec R s h1 h2 N
  have hKle : (K : Int) ≤ (commitSeq R s N).historyIndex := by
    rw [ci]; omega
  obtain ⟨uh, ui⟩ := undoTimes_spec (commitSeq R s N) K hKle
  refine ⟨?_, ?_, ?_, ?_⟩
  · unfold currentImage
    rw [ui, ci, uh, ch, if_pos (by omega : (0 : Int) ≤ (N : Int) - (K : Int))]
    rw [show ((N : Int) - (K : Int)).toNat = N - K by omega]
    simp [List.getElem?_map, List.getElem?_range, show N - K < N + 1 by omega]
  · unfold canRedo
    rw [ui, ci, uh, ch]
    simp only [List.length_map, List.length_range]
    rw [decide_eq_decide]
    push_cast
    omega
  · unfold canUndo
    simp
  · unfold canRedo
    simp

/-- Claim C2 witness: two commits from `[R0]`, one undo: current is `R 1`
and redo is available. -/
theorem commit_undo_trajectory_witness :
    baseState.history = [Raster.img 0] ∧ baseState.historyIndex = 0 ∧ 1 ≤ 2 ∧
    currentImage (undoTimes (commitSeq Raster.img baseState 2) 1) =
      some (Raster.img 1) ∧
    canRedo (undoTimes (commitSeq Raster.img baseState 2) 1) = decide (0 < 1) := by
  refine ⟨rfl, rfl, by omega, ?_, ?_⟩
  · exact (commit_undo_trajectory Raster.img baseState 2 1 rfl rfl (by omega)).1
  · exact (commit_undo_trajectory Raster.img baseState 2 1 rfl rfl (by omega)).2.1

/-- Claim C5 counterexample: for a natural 1000x500 image displayed at
500x250 with display crop (100,50,100,50) and device pixel ratio 1, the
committed crop raster's canvas is 100x50 (display size times pixel
ratio), not the 200x100 the claim computes (display size times the
per-axis display-to-natural scale times pixel ratio); the per-axis
scaling applies only to the source rectangle. -/
theorem crop_output_dims_counterexample :
    (handleApplyCrop stateCrop100 true 1000 500 500 250 true 1).map currentImage =
      Except.ok (some (Raster.cropped 100 50 200 100 200 100)) ∧
    cropOutputWidthSpec 100 (1000 / 500) 1 = 200 ∧
    ((100 : ℚ) ≠ 200) := by
  refine ⟨?_, by norm_num [cropOutputWidthSpec], by norm_num⟩
  norm_num [handleApplyCrop, stateCrop100, baseState, addImageToHistory,
    currentImage, Except.map]

/-- Claim C5 amended: whenever both canvas dimensions (display-space crop
width and height times the device pixel ratio) are positive,
`handleApplyCrop` completes and commits a raster whose canvas dimensions
are exactly those display-space dimensions times the pixel ratio, while
the `drawImage` source rectangle is the crop scaled per axis by
naturalWidth/displayWidth and naturalHeight/displayHeight independently;
a zero canvas dimension instead aborts in `dataURLtoFile` with nothing
committed. -/
theorem crop_rasterization_amended (s : AppState) (c : CropRect)
    (nw nh dw dh pr : ℚ) (hc : s.completedCrop = some c)
    (hw : 0 < c.width * pr) (hh : 0 < c.height * pr) :
    handleApplyCrop s true nw nh dw dh true pr =
      Except.ok (addImageToHistory s
        (Raster.cropped (c.width * pr) (c.height * pr)
          (c.x * (nw / dw)) (c.y * (nh / dh))
          (c.width * (nw / dw)) (c.height * (nh / dh)))) := by
  unfold handleApplyCrop
  rw [hc]
  simp [ne_of_gt hw, ne_of_gt hh]

/-- Claim C5 amended witness: the amended statement at the spec's own
1000x500-at-500x250 example with a positive 100x50 crop. -/
theorem crop_rasterization_amended_witness :
    stateCrop100.completedCrop = some ⟨100, 50, 100, 50⟩ ∧
    ((0 : ℚ) < 100 * 1) ∧ ((0 : ℚ) < 50 * 1) ∧
    handleApplyCrop stateCrop100 true 1000 500 500 250 true 1 =
      Except.ok (addImageToHistory stateCrop100
        (Raster.cropped (100 * 1) (50 * 1) (100 * (1000 / 500)) (50 * (500 / 250))
          (100 * (1000 / 500)) (50 * (500 / 250)))) := by
  refine ⟨rfl, by norm_num, by norm_num, ?_⟩
  exact crop_rasterization_amended stateCrop100 ⟨100, 50, 100, 50⟩
    1000 500 500 250 1 rfl (by norm_num) (by norm_num)

/-- Claim C6 counterexample: a completed crop with positive width 5 but
height 0 (≤ 0) passes the apply-crop enable gate, and applying it does
not fail with any surfaced InvalidRegion-style error condition: the
zero-height canvas makes `toDataURL` return `data:,` and `dataURLtoFile`
throws uncaught — the handler aborts with the session state untouched, so
no raster is committed but no error condition is raised either. -/
theorem degenerate_crop_throws_counterexample :
    stateDegenerateCrop.completedCrop = some ⟨0, 0, 5, 0⟩ ∧
    ((0 : ℚ) ≤ 0) ∧
    isApplyCropEnabled stateDegenerateCrop = true ∧
    handleApplyCrop stateDegenerateCrop true 100 100 100 100 true 1 =
      Except.error "Could not parse MIME type from data URL" := by
  refine ⟨rfl, le_refl 0, by decide, ?_⟩
  norm_num [handleApplyCrop, stateDegenerateCrop, baseState]

/-- Claim C6 amended: a crop attempt with no completed region or no image
element returns normally with the please-select error message and the
history untouched; a region with non-positive width cannot be applied
because the apply-crop control is disabled (the gate never inspects the
height); and a region reaching rasterization with a zero canvas width or
height makes `dataURLtoFile` throw uncaught — nothing is committed, but
no InvalidRegion-style error condition is surfaced. -/
theorem crop_invalid_region_amended (s : AppState) (imgOk : Bool)
    (nw nh dw dh pr : ℚ) (ctxOk : Bool) :
    (s.completedCrop = none →
      handleApplyCrop s imgOk nw nh dw dh ctxOk pr =
        Except.ok { s with error := some "Please select an area to crop." }) ∧
    (imgOk = false →
      handleApplyCrop s imgOk nw nh dw dh ctxOk pr =
        Except.ok { s with error := some "Please select an area to crop." }) ∧
    (∀ c : CropRect, s.completedCrop = some c → c.width ≤ 0 →
      isApplyCropEnabled s = false) ∧
    (∀ c : CropRect, s.completedCrop = some c → imgOk = true → ctxOk = true →
      (c.width * pr = 0 ∨ c.height * pr = 0) →
      handleApplyCrop s imgOk nw nh dw dh ctxOk pr =
        Except.error "Could not parse MIME type from data URL") := by
  refine ⟨?_, ?_, ?_, ?_⟩
  · intro h
    simp [handleApplyCrop, h]
  · intro h
    unfold handleApplyCrop
    cases hc : s.completedCrop <;> simp [h]
  · intro c hc hw
    unfold isApplyCropEnabled
    rw [hc]
    rcases lt_or_eq_of_le hw with h | h
    · simp
      intro _
      linarith
    · simp [h]
  · intro c hc h1 h2 hzero
    unfold handleApplyCrop
    rw [hc]
    rcases hzero with hz | hz <;> simp [h1, h2, hz]

/-- Claim C6 amended witness: the no-region failure, the zero-width gate,
and the zero-height uncaught throw at concrete states. -/
theorem crop_invalid_region_amended_witness :
    baseState.completedCrop = none ∧
    handleApplyCrop baseState true 10 10 10 10 true 1 =
      Except.ok { baseState with error := some "Please select an area to crop." } ∧
    stateZeroWidthCrop.completedCrop = some ⟨0, 0, 0, 5⟩ ∧ ((0 : ℚ) ≤ 0) ∧
    isApplyCropEnabled stateZeroWidthCrop = false ∧
    handleApplyCrop stateDegenerateCrop true 10 10 10 10 true 1 =
      Except.error "Could not parse MIME type from data URL" := by
  refine ⟨rfl, ?_, rfl, le_refl 0, ?_, ?_⟩
  · exact (crop_invalid_region_amended baseState true 10 10 10 10 1 true).1 rfl
  · exact (crop_invalid_region_amended stateZeroWidthCrop true 10 10 10 10 1 true).2.2.1
      ⟨0, 0, 0, 5⟩ rfl (le_refl 0)
  · exact (crop_invalid_region_amended stateDegenerateCrop true 10 10 10 10 1 true).2.2.2
      ⟨0, 0, 5, 0⟩ rfl rfl rfl (Or.inr (by norm_num))

/-- Folding the layer-paint step from any accumulator prepends the
accumulator to the ops produced from the empty one. -/
theorem foldl_drawStep_append (l : List TextLayer) :
    ∀ acc : List TextOp, l.foldl drawStep acc = acc ++ l.foldl drawStep [] := by
  induction l with
  | nil => intro acc; simp
  | cons a l ih =>
    intro acc
    rw [List.foldl_cons, List.foldl_cons, ih (drawStep acc a), ih (drawStep [] a)]
    cases h : (a.visible && (a.type == "text")) <;> simp [drawStep, h]

/-- Claim C7: flattening skips an invisible layer entirely — removing a
layer with `visible = false` from the list leaves the flatten output
bit-identical, at both the merge-to-history draw loop and the
download/export draw loop. -/
theorem flatten_skips_invisible_layer (base : Raster) (pre post : List TextLayer)
    (L : TextLayer) (hL : L.visible = false) :
    Raster.merged base (mergeDrawOps (pre ++ L :: post)) =
      Raster.merged base (mergeDrawOps (pre ++ post)) ∧
    downloadOutput base (pre ++ L :: post) = downloadOutput base (pre ++ post) := by
  have key : mergeDrawOps (pre ++ L :: post) = mergeDrawOps (pre ++ post) := by
    unfold mergeDrawOps
    simp [List.reverse_append, List.foldl_append, drawStep, hL]
  refine ⟨by rw [key], ?_⟩
  unfold downloadOutput
  rw [show downloadDrawOps (pre ++ L :: post) = mergeDrawOps (pre ++ L :: post) from rfl,
      show downloadDrawOps (pre ++ post) = mergeDrawOps (pre ++ post) from rfl, key]

/-- Claim C7 witness: dropping a concrete invisible layer from a
two-layer list leaves the flatten output unchanged. -/
theorem flatten_skips_invisible_layer_witness :
    layerHidden.visible = false ∧
    Raster.merged (Raster.img 0) (mergeDrawOps ([layerA] ++ layerHidden :: [])) =
      Raster.merged (Raster.img 0) (mergeDrawOps ([layerA] ++ [])) :=
  ⟨rfl, (flatten_skips_invisible_layer (Raster.img 0) [layerA] [] layerHidden rfl).1⟩

/-- Claim C8: when the external collaborator call fails, each
content-altering handler (filter, adjustment, auto-enhance, upscale,
localized retouch) leaves the current raster, the history sequence and
the cursor unchanged, sets the error message, and clears the busy flag.
A loaded image is the only precondition for a call to be dispatched at
all; the retouch conjunct additionally assumes its own dispatch guards
(nonblank prompt and selected hotspot), which the other four handlers do
not have. -/
theorem failed_collaborator_preserves_current (s : AppState) (msg : String)
    (himg : (currentImage s).isSome = true) :
    (currentImage (handleApplyFilter s (Except.error msg)) = currentImage s ∧
     (handleApplyFilter s (Except.error msg)).history = s.history ∧
     (handleApplyFilter s (Except.error msg)).historyIndex = s.historyIndex ∧
     (handleApplyFilter s (Except.error msg)).error =
       some ("Failed to apply the filter. " ++ msg) ∧
     (handleApplyFilter s (Except.error msg)).isLoading = false) ∧
    (currentImage (handleApplyAdjustment s (Except.error msg)) = currentImage s ∧
     (handleApplyAdjustment s (Except.error msg)).history = s.history ∧
     (handleApplyAdjustment s (Except.error msg)).historyIndex = s.historyIndex ∧
     (handleApplyAdjustment s (Except.error msg)).error =
       some ("Failed to apply the adjustment. " ++ msg) ∧
     (handleApplyAdjustment s (Except.error msg)).isLoading = false) ∧
    (currentImage (handleAutoEnhance s (Except.error msg)) = currentImage s ∧
     (handleAutoEnhance s (Except.error msg)).history = s.history ∧
     (handleAutoEnhance s (Except.error msg)).historyIndex = s.historyIndex ∧
     (handleAutoEnhance s (Except.error msg)).error =
       some ("Failed to auto-enhance the image. " ++ msg) ∧
     (handleAutoEnhance s (Except.error msg)).isLoading = false) ∧
    (currentImage (handleUpscale s (Except.error msg)) = currentImage s ∧
     (handleUpscale s (Except.error msg)).history = s.history ∧
     (handleUpscale s (Except.error msg)).historyIndex = s.historyIndex ∧
     (handleUpscale s (Except.error msg)).error =
       some ("Failed to upscale the image. " ++ msg) ∧
     (handleUpscale s (Except.error msg)).isLoading = false) ∧
    (promptIsBlank s.prompt = false → s.editHotspot.isSome = true →
     currentImage (handleGenerate s (Except.error msg)) = currentImage s ∧
     (handleGenerate s (Except.error msg)).history = s.history ∧
     (handleGenerate s (Except.error msg)).historyIndex = s.historyIndex ∧
     (handleGenerate s (Except.error msg)).error =
       some ("Failed to generate the image. " ++ msg) ∧
     (handleGenerate s (Except.error msg)).isLoading = false) := by
  obtain ⟨r0, hcur⟩ := Option.isSome_iff_exists.mp himg
  have hnone : (currentImage s).isNone = false := by rw [hcur]; rfl
  refine ⟨?_, ?_, ?_, ?_, ?_⟩
  · unfold handleApplyFilter
    rw [hnone]
    simp [currentImage]
  · unfold handleApplyAdjustment
    rw [hnone]
    simp [currentImage]
  · unfold handleAutoEnhance
    rw [hnone]
    simp [currentImage]
  · unfold handleUpscale
    rw [hnone]
    simp [currentImage]
  · intro hprompt hhot
    have hhn : s.editHotspot.isNone = false := by
      obtain ⟨p, hp⟩ := Option.isSome_iff_exists.mp hhot
      rw [hp]; rfl
    unfold handleGenerate
    rw [hnone, hprompt, hhn]
    simp [currentImage]

/-- Claim C8 witness: a concrete state with an image, a nonblank prompt
and a hotspot; the failed filter call reports its error with the busy
flag cleared and the history intact. -/
theorem failed_collaborator_preserves_current_witness :
    ((currentImage { stateWithHotspot with prompt := "x" }).isSome = true ∧
     promptIsBlank ({ stateWithHotspot with prompt := "x" } : AppState).prompt = false ∧
     ({ stateWithHotspot with prompt := "x" } : AppState).editHotspot.isSome = true) ∧
    (handleApplyFilter { stateWithHotspot with prompt := "x" }
        (Except.error "boom")).error =
      some ("Failed to apply the filter. " ++ "boom") ∧
    (handleGenerate { stateWithHotspot with prompt := "x" }
        (Except.error "boom")).history =
      ({ stateWithHotspot with prompt := "x" } : AppState).history := by
  have h := failed_collaborator_preserves_current
    { stateWithHotspot with prompt := "x" } "boom" (by decide)
  exact ⟨⟨by decide, by decide, by decide⟩, h.1.2.2.2.1,
    (h.2.2.2.2 (by decide) (by decide)).2.1⟩

/-- Claim C9 counterexample: with one existing visible layer, adding a new
text layer appends it at the end of the sequence; the flatten paint order
(reversed sequence, so that index 0 is painted last and ends up on top)
paints the new layer first and the pre-existing layer last — the new
layer is at the bottom, not the top, of the flatten paint order. -/
theorem added_layer_painted_first_counterexample :
    (handleAddTextLayer stateOneLayer "t1").layers = [layerA, newTextLayer "t1"] ∧
    mergeDrawOps (handleAddTextLayer stateOneLayer "t1").layers =
      [textOpOf (newTextLayer "t1"), textOpOf layerA] ∧
    (mergeDrawOps (handleAddTextLayer stateOneLayer "t1").layers).getLast? =
      some (textOpOf layerA) ∧
    textOpOf layerA ≠ textOpOf (newTextLayer "t1") := by
  refine ⟨rfl, rfl, rfl, by decide⟩

/-- Claim C9 amended: adding a new text layer appends it at the end of the
layer sequence as the selected layer, with the documented defaults; it is
therefore the first-painted (bottom-most) op in the flatten paint order,
on top only in live rendering; removing the currently selected layer
clears the selection to none. -/
theorem add_remove_layer_amended (s : AppState) (newId lid : String) :
    (handleAddTextLayer s newId).layers = s.layers ++ [newTextLayer newId] ∧
    (handleAddTextLayer s newId).selectedLayerId = some newId ∧
    (newTextLayer newId).content = "Your Text Here" ∧
    (newTextLayer newId).opacity = 1 ∧
    (newTextLayer newId).visible = true ∧
    mergeDrawOps (handleAddTextLayer s newId).layers =
      textOpOf (newTextLayer newId) :: mergeDrawOps s.layers ∧
    (s.selectedLayerId = some lid →
      (handleRemoveLayer s lid).selectedLayerId = none) := by
  refine ⟨rfl, rfl, rfl, rfl, rfl, ?_, ?_⟩
  · show mergeDrawOps (s.layers ++ [newTextLayer newId]) = _
    unfold mergeDrawOps
    rw [show (s.layers ++ [newTextLayer newId]).reverse =
          newTextLayer newId :: s.layers.reverse by simp]
    rw [List.foldl_cons, foldl_drawStep_append]
    simp [drawStep, newTextLayer]
  · intro h
    simp [handleRemoveLayer, h]

/-- Claim C9 amended witness: the amended statement at a concrete
one-layer state, including selection clearing on removal. -/
theorem add_remove_layer_amended_witness :
    (handleAddTextLayer stateOneLayer "t1").selectedLayerId = some "t1" ∧
    ({ stateOneLayer with selectedLayerId := some "a1" } : AppState).selectedLayerId =
      some "a1" ∧
    (handleRemoveLayer { stateOneLayer with selectedLayerId := some "a1" } "a1").selectedLayerId =
      none := by
  refine ⟨(add_remove_layer_amended stateOneLayer "t1" "a1").2.1, rfl, ?_⟩
  exact (add_remove_layer_amended { stateOneLayer with selectedLayerId := some "a1" }
    "t1" "a1").2.2.2.2.2.2 rfl
